import Mathlib

/-!
Verification of the interval-timing library (`timer.c` / `timer.h`).

The C sources are shallowly embedded: `struct timespec` becomes a pair of
integers, the status codes become integer constants, pure C functions become
Lean functions on these types, the `clock_gettime` system call is abstracted
as an `Option Timespec` oracle (its outcome), `malloc` is abstracted as an
`Option` holding the indeterminate initial contents of the allocated block,
and the `printf`-based reporting functions return the text they emit on
stdout as a `String`.  C `double` arithmetic is modelled over `ℚ`; every
concrete value appearing in the theorems below is exactly representable in
binary64 and all the operations on it are exact there, so the rational model
agrees with the C computation on those values.

The `int` arithmetic inside `diff_timespec` is modelled over `ℤ`; on the
domain quantified over below (nanosecond fields below 10^9) no C `int`
overflow can occur, so the model is faithful there.
-/

namespace Timer

/-- Embedding of `struct timespec`: a seconds field and a nanoseconds field.
`time_t` and `long` are modelled as unbounded integers. -/
structure Timespec where
  tv_sec : Int
  tv_nsec : Int
deriving DecidableEq, Repr

/-- Status code `OK` from `timer.h`. -/
def OK : Int := 0

/-- Status code `NOT_ALLOCATED` from `timer.h`. -/
def NOT_ALLOCATED : Int := -1

/-- Status code `CLOCK_FAILED` from `timer.h`. -/
def CLOCK_FAILED : Int := -2

/-- Modelled from the spec: the unit enumeration member `s` (seconds).  The
header defining `unit_e` is not part of the sources; the spec lists the
units seconds, milliseconds, microseconds, nanoseconds (in this order,
matching the `case 0`..`case 3` labels of `print_unit`) plus a sentinel. -/
def s : Int := 0

/-- Modelled from the spec: the unit enumeration member `ms` (milliseconds). -/
def ms : Int := 1

/-- Modelled from the spec: the unit enumeration member `us` (microseconds). -/
def us : Int := 2

/-- Modelled from the spec: the unit enumeration member `ns` (nanoseconds). -/
def ns : Int := 3

/-- Modelled from the spec: `unit_check`, the first value past the defined
units, used by `elapsed_interval` as the exclusive upper bound of the valid
unit range. -/
def unit_check : Int := 4

/-- Modelled from the spec: the sentinel `none` meaning "use the interval's
configured unit".  It lies outside `[0, unit_check)`; the demo program
passes `-1` for it. -/
def none : Int := -1

/-- Embedding of `diff_timespec` from `timer.c` (lines 98–119).  C `int`
division truncates toward zero, hence `Int.tdiv`. -/
def diff_timespec (e b : Timespec) : Timespec :=
  let result := b
  let result :=
    if e.tv_nsec < b.tv_nsec then
      let nsec : Int := (b.tv_nsec - e.tv_nsec).tdiv 1000000000 + 1
      { tv_sec := result.tv_sec + nsec, tv_nsec := result.tv_nsec - 1000000000 * nsec }
    else result
  let result :=
    if e.tv_nsec - b.tv_nsec > 1000000000 then
      let nsec : Int := (e.tv_nsec - b.tv_nsec).tdiv 1000000000
      { tv_sec := result.tv_sec - nsec, tv_nsec := result.tv_nsec + 1000000000 * nsec }
    else result
  { tv_sec := e.tv_sec - result.tv_sec, tv_nsec := e.tv_nsec - result.tv_nsec }

/-- A timestamp is conforming (normalized) when its nanoseconds field lies in
`[0, 1_000_000_000)`. -/
def conforming (t : Timespec) : Prop :=
  0 ≤ t.tv_nsec ∧ t.tv_nsec < 1000000000

instance (t : Timespec) : Decidable (conforming t) := by
  unfold conforming; infer_instance

/-- Total value of a timestamp in nanoseconds. -/
def tsVal (t : Timespec) : Int :=
  t.tv_sec * 1000000000 + t.tv_nsec

/-- Embedding of `interval_t`: name, clock source, reporting unit, and the
two recorded timestamps.  `clock_e` and `unit_e` are C `int`-backed
enumerations, modelled as `Int`. -/
structure Interval where
  name : String
  clock : Int
  unit : Int
  start : Timespec
  stop : Timespec
deriving DecidableEq, Repr

/-- Embedding of `print_unit` from `timer.c` (lines 147–168): maps the unit
code to its abbreviation; any value outside `0..3` takes the `default`
label, which emits a diagnostic on stderr and falls through to the
seconds case, returning "s". -/
def print_unit (unit : Int) : String :=
  if unit = 1 then "ms"
  else if unit = 2 then "us"
  else if unit = 3 then "ns"
  else "s"

/-- Embedding of `elapsed_interval` from `timer.c` (lines 247–274).  The
`double` result is modelled as `ℚ`; the `Bool` component records whether the
`default` label of the `switch` ran, i.e. whether the `ERROR` diagnostic was
emitted (the `default` label falls through into the seconds case). -/
def elapsed_interval (tmp : Interval) (ut : Int) : ℚ × Bool :=
  let diff := diff_timespec tmp.stop tmp.start
  let unit : Int := if 0 ≤ ut ∧ ut < unit_check then ut else tmp.unit
  if unit = s then
    ((diff.tv_sec : ℚ) + (diff.tv_nsec : ℚ) / 1000000000, false)
  else if unit = ms then
    ((diff.tv_sec : ℚ) * 1000 + (diff.tv_nsec : ℚ) / 1000000, false)
  else if unit = us then
    ((diff.tv_sec : ℚ) * 1000000 + (diff.tv_nsec : ℚ) / 1000, false)
  else if unit = ns then
    ((diff.tv_sec : ℚ) * 1000000000 + (diff.tv_nsec : ℚ), false)
  else
    ((diff.tv_sec : ℚ) + (diff.tv_nsec : ℚ) / 1000000000, true)

/-- Model of `clock_gettime`: the outcome of sampling the clock is supplied
as an `Option Timespec` oracle.  On success it returns `0` and the sample;
on failure it returns `-1` and leaves the caller's buffer unchanged. -/
def clock_gettime (read : Option Timespec) (time : Timespec) : Int × Timespec :=
  match read with
  | Option.some t => (0, t)
  | Option.none => (-1, time)

/-- Embedding of `get_time` from `timer.c` (lines 203–213): runs the clock
read; `CHECK(ret, ...)` returns `ret` itself when it is non-zero, `OK`
otherwise. -/
def get_time (read : Option Timespec) (time : Timespec) : Int × Timespec :=
  let r := clock_gettime read time
  if r.1 ≠ 0 then (r.1, r.2) else (OK, r.2)

/-- Embedding of `start` from `timer.c` (lines 222–225): samples the
configured clock into the `start` field.  The clock-read outcome is the
oracle argument; `set_clock` only chooses which clock is sampled and is
absorbed into the oracle. -/
def start (tmp : Interval) (read : Option Timespec) : Int × Interval :=
  let r := get_time read tmp.start
  (r.1, { tmp with start := r.2 })

/-- Embedding of `stop` from `timer.c` (lines 234–237): same as `start` but
stores into the `stop` field. -/
def stop (tmp : Interval) (read : Option Timespec) : Int × Interval :=
  let r := get_time read tmp.stop
  (r.1, { tmp with stop := r.2 })

/-- Embedding of `create_interval` from `timer.c` (lines 181–193).  `malloc`
is modelled as an `Option` oracle carrying the indeterminate initial
contents of the `start` and `stop` fields of the freshly allocated block
(the C code never initializes them).  On allocation failure the function
returns `NOT_ALLOCATED` and no interval. -/
def create_interval (alloc : Option (Timespec × Timespec)) (name : String)
    (ck : Int) (ut : Int) : Int × Option Interval :=
  match alloc with
  | Option.none => (NOT_ALLOCATED, Option.none)
  | Option.some g => (OK, Option.some ⟨name, ck, ut, g.1, g.2⟩)

/-- Zero-pads a sub-thousand remainder to three digits. -/
def pad3 (m : Nat) : String :=
  if m < 10 then "00" ++ toString m
  else if m < 100 then "0" ++ toString m
  else toString m

/-- Model of `printf("%.3f", q)` for a non-negative value: round to the
nearest thousandth and print with exactly three decimals.  (No value
considered below is a tie, so the tie-breaking direction is irrelevant.) -/
def fmt3abs (q : ℚ) : String :=
  let n : Nat := (round (q * 1000)).toNat
  toString (n / 1000) ++ "." ++ pad3 (n % 1000)

/-- Model of `printf("%.3f", q)`, extended to negative values with a leading
minus sign. -/
def fmt3 (q : ℚ) : String :=
  if q < 0 then "-" ++ fmt3abs (-q) else fmt3abs q

/-- One cell per entry, separated by ", " with no trailing separator: the
loop bodies of `print_results_csv` print the cell and then ", " exactly
when `i < num - 1`. -/
def csvCells : List String → String
  | [] => ""
  | [x] => x
  | x :: y :: tl => x ++ ", " ++ csvCells (y :: tl)

/-- Embedding of `print_results_csv` from `timer.c` (lines 316–348) as the
text it writes to stdout.  The first loop gathers the names, units, and
elapsed values (computed with the `none` override); the output is the
comment marker, a space, the header cells, a newline, the value cells, and
a newline. -/
def print_results_csv (comment : String) (ts : List Interval) : String :=
  let names := ts.map (fun t => t.name)
  let units := ts.map (fun t => t.unit)
  let values := ts.map (fun t => (elapsed_interval t none).1)
  comment ++ " " ++
    csvCells (List.zipWith (fun n u => n ++ " (" ++ print_unit u ++ ")") names units) ++
    "\n" ++ csvCells (values.map fmt3) ++ "\n"

/-- Second loop of `print_results`: one `printf("%s: %.3f %s\n", ...)` line
per gathered entry. -/
def printLines : List String → List ℚ → List Int → String
  | n :: ns2, v :: vs, u :: us2 =>
      n ++ ": " ++ fmt3 v ++ " " ++ print_unit u ++ "\n" ++ printLines ns2 vs us2
  | _, _, _ => ""

/-- Embedding of `print_results` from `timer.c` (lines 283–306) as the text
it writes to stdout: the first loop gathers names, units, and elapsed
values (with the `none` override); the second prints one line per
interval.  Names are modelled as never `NULL`. -/
def print_results (ts : List Interval) : String :=
  let names := ts.map (fun t => t.name)
  let units := ts.map (fun t => t.unit)
  let values := ts.map (fun t => (elapsed_interval t none).1)
  printLines names values units

/-- On conforming inputs `diff_timespec` reduces to a single borrow step:
the second (carry) branch of the C code can never fire. -/
lemma diff_timespec_eq_of_conforming (e b : Timespec)
    (hb : conforming b) (he : conforming e) :
    diff_timespec e b =
      if e.tv_nsec < b.tv_nsec then
        { tv_sec := e.tv_sec - b.tv_sec - 1,
          tv_nsec := e.tv_nsec - b.tv_nsec + 1000000000 }
      else
        { tv_sec := e.tv_sec - b.tv_sec, tv_nsec := e.tv_nsec - b.tv_nsec } := by
  obtain ⟨hb0, hb1⟩ := hb
  obtain ⟨he0, he1⟩ := he
  unfold diff_timespec
  by_cases h1 : e.tv_nsec < b.tv_nsec
  · have ht : (b.tv_nsec - e.tv_nsec).tdiv 1000000000 = 0 :=
      Int.tdiv_eq_zero_of_lt (by omega) (by omega)
    have h2 : ¬ (e.tv_nsec - b.tv_nsec > 1000000000) := by omega
    simp only [if_pos h1, if_neg h2, ht]
    congr 1 <;> ring
  · have h2 : ¬ (e.tv_nsec - b.tv_nsec > 1000000000) := by omega
    simp only [if_neg h1, if_neg h2]

/-- Field-level reading of `diff_timespec` on conforming inputs. -/
lemma diff_timespec_fields (e b : Timespec)
    (hb : conforming b) (he : conforming e) :
    (diff_timespec e b).tv_sec =
      (if e.tv_nsec < b.tv_nsec then e.tv_sec - b.tv_sec - 1 else e.tv_sec - b.tv_sec) ∧
    (diff_timespec e b).tv_nsec =
      (if e.tv_nsec < b.tv_nsec then e.tv_nsec - b.tv_nsec + 1000000000
       else e.tv_nsec - b.tv_nsec) := by
  rw [diff_timespec_eq_of_conforming e b hb he]
  by_cases h1 : e.tv_nsec < b.tv_nsec
  · simp only [if_pos h1]; exact ⟨trivial, trivial⟩
  · simp only [if_neg h1]; exact ⟨trivial, trivial⟩

/-- C1: for conforming timestamps with `end ≥ begin`, `diff_timespec` returns
a non-negative, normalized result whose total value is the exact mathematical
difference; in particular `diff_timespec {2,0} {1,500000000} = {0,500000000}`
and `diff_timespec {1,0} {0,400000000} = {0,600000000}`. -/
theorem diff_timespec_nonneg_exact (b e : Timespec)
    (hb : conforming b) (he : conforming e) (hle : tsVal b ≤ tsVal e) :
    conforming (diff_timespec e b) ∧
    0 ≤ (diff_timespec e b).tv_sec ∧
    tsVal (diff_timespec e b) = tsVal e - tsVal b ∧
    diff_timespec ⟨2, 0⟩ ⟨1, 500000000⟩ = ⟨0, 500000000⟩ ∧
    diff_timespec ⟨1, 0⟩ ⟨0, 400000000⟩ = ⟨0, 600000000⟩ := by
  obtain ⟨hs, hn⟩ := diff_timespec_fields e b hb he
  obtain ⟨hb0, hb1⟩ := hb
  obtain ⟨he0, he1⟩ := he
  unfold tsVal at hle ⊢
  unfold conforming
  by_cases h1 : e.tv_nsec < b.tv_nsec
  · simp only [if_pos h1] at hs hn
    exact ⟨⟨by omega, by omega⟩, by omega, by omega, by decide, by decide⟩
  · simp only [if_neg h1] at hs hn
    exact ⟨⟨by omega, by omega⟩, by omega, by omega, by decide, by decide⟩

/-- Witness for C1 at the carry example from the spec. -/
theorem diff_timespec_nonneg_exact_witness :
    conforming (diff_timespec ⟨2, 0⟩ ⟨1, 500000000⟩) ∧
    0 ≤ (diff_timespec ⟨2, 0⟩ ⟨1, 500000000⟩).tv_sec ∧
    tsVal (diff_timespec ⟨2, 0⟩ ⟨1, 500000000⟩) = tsVal ⟨2, 0⟩ - tsVal ⟨1, 500000000⟩ ∧
    diff_timespec ⟨2, 0⟩ ⟨1, 500000000⟩ = ⟨0, 500000000⟩ ∧
    diff_timespec ⟨1, 0⟩ ⟨0, 400000000⟩ = ⟨0, 600000000⟩ :=
  diff_timespec_nonneg_exact ⟨1, 500000000⟩ ⟨2, 0⟩ (by decide) (by decide) (by decide)

/-- C2: for all conforming timestamps, including `end < begin`,
`diff_timespec` returns a normalized result whose total value is the exact
signed difference, the sign being carried into the seconds field. -/
theorem diff_timespec_signed_exact (b e : Timespec)
    (hb : conforming b) (he : conforming e) :
    conforming (diff_timespec e b) ∧
    tsVal (diff_timespec e b) = tsVal e - tsVal b ∧
    ((diff_timespec e b).tv_sec < 0 ↔ tsVal e < tsVal b) := by
  obtain ⟨hs, hn⟩ := diff_timespec_fields e b hb he
  obtain ⟨hb0, hb1⟩ := hb
  obtain ⟨he0, he1⟩ := he
  unfold tsVal
  unfold conforming
  by_cases h1 : e.tv_nsec < b.tv_nsec
  · simp only [if_pos h1] at hs hn
    exact ⟨⟨by omega, by omega⟩, by omega, by omega⟩
  · simp only [if_neg h1] at hs hn
    exact ⟨⟨by omega, by omega⟩, by omega, by omega⟩

/-- Witness for C2 at a negative-difference input. -/
theorem diff_timespec_signed_exact_witness :
    conforming (diff_timespec ⟨0, 0⟩ ⟨0, 400000000⟩) ∧
    tsVal (diff_timespec ⟨0, 0⟩ ⟨0, 400000000⟩) = tsVal ⟨0, 0⟩ - tsVal ⟨0, 400000000⟩ ∧
    ((diff_timespec ⟨0, 0⟩ ⟨0, 400000000⟩).tv_sec < 0 ↔ tsVal ⟨0, 0⟩ < tsVal ⟨0, 400000000⟩) :=
  diff_timespec_signed_exact ⟨0, 400000000⟩ ⟨0, 0⟩ (by decide) (by decide)

/-- An invalid (or sentinel) unit override makes `elapsed_interval` behave
exactly as if it had been called with the interval's configured unit. -/
lemma elapsed_interval_invalid (tmp : Interval) (ut : Int)
    (h : ¬ (0 ≤ ut ∧ ut < unit_check)) :
    elapsed_interval tmp ut = elapsed_interval tmp tmp.unit := by
  simp only [elapsed_interval, if_neg h, ite_self]

/-- The `none` sentinel selects the interval's configured unit. -/
lemma elapsed_interval_none (tmp : Interval) :
    elapsed_interval tmp none = elapsed_interval tmp tmp.unit :=
  elapsed_interval_invalid tmp none (by decide)

/-- A valid unit override behaves as if the interval had been configured
with the override and read without one. -/
lemma elapsed_interval_valid (tmp : Interval) (ut : Int)
    (h : 0 ≤ ut ∧ ut < unit_check) :
    elapsed_interval tmp ut = elapsed_interval { tmp with unit := ut } none := by
  have hn : ¬ (0 ≤ none ∧ none < unit_check) := by decide
  simp only [elapsed_interval, if_pos h, if_neg hn]

/-- A valid unit override never triggers the `default` diagnostic. -/
lemma elapsed_interval_valid_no_diag (tmp : Interval) (ut : Int)
    (h : 0 ≤ ut ∧ ut < unit_check) :
    (elapsed_interval tmp ut).2 = false := by
  obtain ⟨ha, hb⟩ := h
  simp only [unit_check] at hb
  have h4 : ut = 0 ∨ ut = 1 ∨ ut = 2 ∨ ut = 3 := by omega
  have h' : 0 ≤ ut ∧ ut < unit_check := ⟨ha, by simp only [unit_check]; omega⟩
  simp only [elapsed_interval, if_pos h']
  rcases h4 with rfl | rfl | rfl | rfl <;> rfl

/-- With an invalid override, the diagnostic fires exactly when the
configured unit is itself outside the enumeration. -/
lemma elapsed_interval_invalid_diag (tmp : Interval) (ut : Int)
    (h : ¬ (0 ≤ ut ∧ ut < unit_check)) :
    ((elapsed_interval tmp ut).2 = true ↔ ¬ (0 ≤ tmp.unit ∧ tmp.unit < unit_check)) := by
  rw [elapsed_interval_invalid tmp ut h]
  by_cases hv : 0 ≤ tmp.unit ∧ tmp.unit < unit_check
  · rw [elapsed_interval_valid_no_diag tmp tmp.unit hv]
    simp [hv]
  · simp only [elapsed_interval, ite_self]
    have h4 : ¬ (tmp.unit = 0 ∨ tmp.unit = 1 ∨ tmp.unit = 2 ∨ tmp.unit = 3) := by
      simp only [unit_check] at hv; omega
    push_neg at h4
    obtain ⟨e0, e1, e2, e3⟩ := h4
    simp only [s, ms, us, ns, if_neg e0, if_neg e1, if_neg e2, if_neg e3]
    simpa using hv

/-- C3 counterexample: with the sentinel override and a valid configured
unit, `elapsed_interval` does fall back to the configured unit but emits no
diagnostic, contrary to the claim that an absent/invalid override "emits a
diagnostic". -/
theorem elapsed_interval_sentinel_no_diagnostic :
    (elapsed_interval ⟨"t", 2, s, ⟨0, 0⟩, ⟨1, 0⟩⟩ none).2 = false ∧
    (elapsed_interval ⟨"t", 2, s, ⟨0, 0⟩, ⟨1, 0⟩⟩ none).1 =
      (elapsed_interval ⟨"t", 2, s, ⟨0, 0⟩, ⟨1, 0⟩⟩ s).1 :=
  ⟨rfl, rfl⟩

/-- C3 amended: a valid override is used (the call behaves as if the
interval were configured with it); an absent/invalid override falls back to
the interval's configured unit, never crashing, and the diagnostic is
emitted exactly when the unit actually selected — the configured unit after
fallback — is itself outside the defined enumeration. -/
theorem elapsed_interval_override_fallback (tmp : Interval) (ut : Int) :
    (0 ≤ ut ∧ ut < unit_check →
      elapsed_interval tmp ut = elapsed_interval { tmp with unit := ut } none ∧
      (elapsed_interval tmp ut).2 = false) ∧
    (¬ (0 ≤ ut ∧ ut < unit_check) →
      elapsed_interval tmp ut = elapsed_interval tmp tmp.unit ∧
      ((elapsed_interval tmp ut).2 = true ↔
        ¬ (0 ≤ tmp.unit ∧ tmp.unit < unit_check))) :=
  ⟨fun h => ⟨elapsed_interval_valid tmp ut h, elapsed_interval_valid_no_diag tmp ut h⟩,
   fun h => ⟨elapsed_interval_invalid tmp ut h, elapsed_interval_invalid_diag tmp ut h⟩⟩

/-- Witness for the amended C3 at a valid override. -/
theorem elapsed_interval_override_fallback_witness :
    elapsed_interval ⟨"w", 2, 0, ⟨0, 0⟩, ⟨1, 0⟩⟩ ms =
      elapsed_interval ⟨"w", 2, ms, ⟨0, 0⟩, ⟨1, 0⟩⟩ none ∧
    (elapsed_interval ⟨"w", 2, 0, ⟨0, 0⟩, ⟨1, 0⟩⟩ ms).2 = false :=
  (elapsed_interval_override_fallback ⟨"w", 2, 0, ⟨0, 0⟩, ⟨1, 0⟩⟩ ms).1 (by decide)

/-- C4: a failed clock read surfaces the (non-OK) failure status and leaves
the recorded timestamp untouched; a successful read stores the sample in
the targeted field and returns OK.  The other timestamp field is covered by
the frame theorem below. -/
theorem start_stop_clock_result (tmp : Interval) (t : Timespec) :
    start tmp (Option.some t) = (OK, { tmp with start := t }) ∧
    start tmp Option.none = (-1, tmp) ∧
    stop tmp (Option.some t) = (OK, { tmp with stop := t }) ∧
    stop tmp Option.none = (-1, tmp) ∧
    (-1 : Int) ≠ OK :=
  ⟨rfl, rfl, rfl, rfl, by decide⟩

/-- C5 counterexample: two successful creations with identical arguments
return intervals whose start timestamps are the respective indeterminate
contents of the allocation — `{7,7}` in one run and `{8,8}` in another —
so the start timestamp of a fresh interval is neither zero nor any fixed
sentinel value. -/
theorem create_interval_start_indeterminate :
    create_interval (Option.some (⟨7, 7⟩, ⟨7, 7⟩)) "x" 2 0 =
      (OK, Option.some ⟨"x", 2, 0, ⟨7, 7⟩, ⟨7, 7⟩⟩) ∧
    create_interval (Option.some (⟨8, 8⟩, ⟨8, 8⟩)) "x" 2 0 =
      (OK, Option.some ⟨"x", 2, 0, ⟨8, 8⟩, ⟨8, 8⟩⟩) ∧
    (⟨7, 7⟩ : Timespec) ≠ ⟨0, 0⟩ ∧ (⟨7, 7⟩ : Timespec) ≠ ⟨8, 8⟩ :=
  ⟨rfl, rfl, by decide, by decide⟩

/-- C5 amended: a successful `create_interval` returns an interval whose
name, clock source, and unit equal the given arguments, while the start and
stop timestamps are left uninitialized (they hold whatever the allocation
yields); it fails with `NOT_ALLOCATED` exactly when the underlying
allocation fails. -/
theorem create_interval_behaviour (name : String) (ck ut : Int)
    (g1 g2 : Timespec) :
    create_interval Option.none name ck ut = (NOT_ALLOCATED, Option.none) ∧
    create_interval (Option.some (g1, g2)) name ck ut =
      (OK, Option.some ⟨name, ck, ut, g1, g2⟩) :=
  ⟨rfl, rfl⟩

/-- C6: a stored difference of exactly 1.5 seconds is reported as exactly
1500 in milliseconds, 1500000 in microseconds, and 1500000000 in
nanoseconds, printing as 1500.000, 1500000.000, and 1500000000.000. -/
theorem elapsed_interval_unit_conversion_exact (tmp : Interval)
    (h : diff_timespec tmp.stop tmp.start = ⟨1, 500000000⟩) :
    (elapsed_interval tmp ms).1 = 1500 ∧
    fmt3 (elapsed_interval tmp ms).1 = "1500.000" ∧
    (elapsed_interval tmp us).1 = 1500000 ∧
    fmt3 (elapsed_interval tmp us).1 = "1500000.000" ∧
    (elapsed_interval tmp ns).1 = 1500000000 ∧
    fmt3 (elapsed_interval tmp ns).1 = "1500000000.000" := by
  have hms : (elapsed_interval tmp ms).1 = 1500 := by
    simp only [elapsed_interval, h]
    norm_num [ms, s, unit_check]
  have hus : (elapsed_interval tmp us).1 = 1500000 := by
    simp only [elapsed_interval, h]
    norm_num [us, ms, s, unit_check]
  have hns : (elapsed_interval tmp ns).1 = 1500000000 := by
    simp only [elapsed_interval, h]
    norm_num [ns, us, ms, s, unit_check]
  refine ⟨hms, ?_, hus, ?_, hns, ?_⟩
  · rw [hms]; norm_num [fmt3, fmt3abs, pad3, round_eq]; rfl
  · rw [hus]; norm_num [fmt3, fmt3abs, pad3, round_eq]; rfl
  · rw [hns]; norm_num [fmt3, fmt3abs, pad3, round_eq]; rfl

/-- Witness for C6 at a concrete interval with difference 1.5 s. -/
theorem elapsed_interval_unit_conversion_exact_witness :
    (elapsed_interval ⟨"w", 2, 0, ⟨0, 0⟩, ⟨1, 500000000⟩⟩ ms).1 = 1500 ∧
    fmt3 (elapsed_interval ⟨"w", 2, 0, ⟨0, 0⟩, ⟨1, 500000000⟩⟩ ms).1 = "1500.000" ∧
    (elapsed_interval ⟨"w", 2, 0, ⟨0, 0⟩, ⟨1, 500000000⟩⟩ us).1 = 1500000 ∧
    fmt3 (elapsed_interval ⟨"w", 2, 0, ⟨0, 0⟩, ⟨1, 500000000⟩⟩ us).1 = "1500000.000" ∧
    (elapsed_interval ⟨"w", 2, 0, ⟨0, 0⟩, ⟨1, 500000000⟩⟩ ns).1 = 1500000000 ∧
    fmt3 (elapsed_interval ⟨"w", 2, 0, ⟨0, 0⟩, ⟨1, 500000000⟩⟩ ns).1 = "1500000000.000" :=
  elapsed_interval_unit_conversion_exact ⟨"w", 2, 0, ⟨0, 0⟩, ⟨1, 500000000⟩⟩ (by decide)

/-- C10: `elapsed_interval` reads only the stored start/stop timestamps,
the configured unit, and the override: two intervals agreeing on those
produce identical results, whatever their names and clock sources. -/
theorem elapsed_interval_deterministic (t1 t2 : Interval) (ut : Int)
    (h1 : t1.start = t2.start) (h2 : t1.stop = t2.stop) (h3 : t1.unit = t2.unit) :
    elapsed_interval t1 ut = elapsed_interval t2 ut := by
  unfold elapsed_interval
  rw [h1, h2, h3]

/-- Witness for C10: two intervals differing in name and clock source. -/
theorem elapsed_interval_deterministic_witness :
    elapsed_interval ⟨"a", 2, 0, ⟨0, 0⟩, ⟨1, 0⟩⟩ none =
      elapsed_interval ⟨"b", 7, 0, ⟨0, 0⟩, ⟨1, 0⟩⟩ none :=
  elapsed_interval_deterministic ⟨"a", 2, 0, ⟨0, 0⟩, ⟨1, 0⟩⟩
    ⟨"b", 7, 0, ⟨0, 0⟩, ⟨1, 0⟩⟩ none rfl rfl rfl

/-- The accumulator loop of `String.intercalate` appends the remaining
cells, each preceded by the separator. -/
lemma intercalate_go_eq (sep : String) : ∀ (l : List String) (acc : String),
    String.intercalate.go acc sep l = acc ++ l.foldr (fun x r => sep ++ x ++ r) ""
  | [], acc => by simp [String.intercalate.go]
  | a :: as, acc => by
    rw [String.intercalate.go, intercalate_go_eq sep as]
    simp [String.append_assoc]

/-- Unfolding law for `String.intercalate` on a list with at least two
cells. -/
lemma intercalate_cons (sep a b : String) (l : List String) :
    String.intercalate sep (a :: b :: l) =
      a ++ sep ++ String.intercalate sep (b :: l) := by
  show String.intercalate.go a sep (b :: l) = a ++ sep ++ String.intercalate.go b sep l
  rw [intercalate_go_eq, intercalate_go_eq]
  simp [String.append_assoc]

/-- The cell loops of the printing functions produce exactly
`String.intercalate ", "`. -/
lemma csvCells_eq_intercalate : ∀ l : List String, csvCells l = String.intercalate ", " l
  | [] => rfl
  | [x] => rfl
  | x :: y :: tl => by
    rw [csvCells, csvCells_eq_intercalate (y :: tl), intercalate_cons]

/-- Zipping two projections of the same list fuses into a single map. -/
lemma zipWith_map_same {α β γ δ : Type _} (f : β → γ → δ) (g : α → β) (h : α → γ) :
    ∀ l : List α, List.zipWith f (l.map g) (l.map h) = l.map (fun t => f (g t) (h t))
  | [] => rfl
  | a :: tl => by
    simp only [List.map_cons, List.zipWith_cons_cons, zipWith_map_same f g h tl]

/-- Unfolding law for `String.join` on a cons cell. -/
lemma join_cons (a : String) (l : List String) :
    String.join (a :: l) = a ++ String.join l := by
  rw [String.join_eq, String.join_eq]
  rfl

/-- C7: the CSV report is exactly two newline-terminated lines: a header of
the comment marker and the "name (unit)" cells joined by ", ", then the
elapsed values — each computed in the interval's own configured unit and
formatted to three decimals — joined by ", ", with no trailing separator. -/
theorem print_results_csv_format (comment : String) (ts : List Interval)
    (h : ts ≠ []) :
    print_results_csv comment ts =
      comment ++ " " ++
        String.intercalate ", "
          (ts.map (fun t => t.name ++ " (" ++ print_unit t.unit ++ ")")) ++ "\n" ++
        String.intercalate ", "
          (ts.map (fun t => fmt3 (elapsed_interval t t.unit).1)) ++ "\n" := by
  have hv : (fun t : Interval => fmt3 (elapsed_interval t none).1) =
      (fun t : Interval => fmt3 (elapsed_interval t t.unit).1) :=
    funext fun t => by rw [elapsed_interval_none]
  simp only [print_results_csv, zipWith_map_same, List.map_map,
    csvCells_eq_intercalate, Function.comp_def, hv]

/-- Witness for C7: the three-interval example of the spec, reproducing the
documented header and data lines verbatim. -/
theorem print_results_csv_format_witness :
    print_results_csv "#"
        [⟨"Test 1", 2, 0, ⟨0, 0⟩, ⟨1, 0⟩⟩,
         ⟨"Test 2", 2, 0, ⟨0, 0⟩, ⟨1, 500000000⟩⟩,
         ⟨"Test 3", 2, 0, ⟨0, 0⟩, ⟨2, 756000000⟩⟩] =
      "#" ++ " " ++
        String.intercalate ", "
          (([⟨"Test 1", 2, 0, ⟨0, 0⟩, ⟨1, 0⟩⟩,
             ⟨"Test 2", 2, 0, ⟨0, 0⟩, ⟨1, 500000000⟩⟩,
             ⟨"Test 3", 2, 0, ⟨0, 0⟩, ⟨2, 756000000⟩⟩] : List Interval).map
            (fun t => t.name ++ " (" ++ print_unit t.unit ++ ")")) ++ "\n" ++
        String.intercalate ", "
          (([⟨"Test 1", 2, 0, ⟨0, 0⟩, ⟨1, 0⟩⟩,
             ⟨"Test 2", 2, 0, ⟨0, 0⟩, ⟨1, 500000000⟩⟩,
             ⟨"Test 3", 2, 0, ⟨0, 0⟩, ⟨2, 756000000⟩⟩] : List Interval).map
            (fun t => fmt3 (elapsed_interval t t.unit).1)) ++ "\n" ∧
    print_results_csv "#"
        [⟨"Test 1", 2, 0, ⟨0, 0⟩, ⟨1, 0⟩⟩,
         ⟨"Test 2", 2, 0, ⟨0, 0⟩, ⟨1, 500000000⟩⟩,
         ⟨"Test 3", 2, 0, ⟨0, 0⟩, ⟨2, 756000000⟩⟩] =
      "# Test 1 (s), Test 2 (s), Test 3 (s)\n1.000, 1.500, 2.756\n" := by
  constructor
  · exact print_results_csv_format "#" _ (by simp)
  · have h1 : (elapsed_interval ⟨"Test 1", 2, 0, ⟨0, 0⟩, ⟨1, 0⟩⟩ none).1 = 1 := by
      norm_num [elapsed_interval, diff_timespec, unit_check, s, ms, us, ns, Timer.none]
    have h2 : (elapsed_interval ⟨"Test 2", 2, 0, ⟨0, 0⟩, ⟨1, 500000000⟩⟩ none).1 = 3 / 2 := by
      norm_num [elapsed_interval, diff_timespec, unit_check, s, ms, us, ns, Timer.none]
    have h3 : (elapsed_interval ⟨"Test 3", 2, 0, ⟨0, 0⟩, ⟨2, 756000000⟩⟩ none).1 = 689 / 250 := by
      norm_num [elapsed_interval, diff_timespec, unit_check, s, ms, us, ns, Timer.none]
    simp only [print_results_csv, List.map_cons, List.map_nil, List.zipWith, csvCells,
      h1, h2, h3]
    norm_num [fmt3, fmt3abs, pad3, round_eq, print_unit]
    rfl

/-- C8: the plain report is one line per interval, in input order, of the
form "name: value unit", the value computed in the interval's own
configured unit and formatted to three decimals. -/
theorem print_results_format (ts : List Interval) :
    print_results ts =
      String.join (ts.map (fun t =>
        t.name ++ ": " ++ fmt3 (elapsed_interval t t.unit).1 ++ " " ++
          print_unit t.unit ++ "\n")) := by
  unfold print_results
  induction ts with
  | nil => rfl
  | cons t tl ih =>
    simp only [List.map_cons, printLines, join_cons] at ih ⊢
    rw [ih, elapsed_interval_none]

/-- C9: `start` mutates only the start timestamp and `stop` only the stop
timestamp; the name, clock source, and unit chosen at creation survive both
(and `elapsed_interval`, `print_results`, `print_results_csv` are pure
functions of the interval, mutating nothing by construction). -/
theorem interval_config_immutable (tmp : Interval) (read : Option Timespec) :
    ((start tmp read).2.name = tmp.name ∧ (start tmp read).2.clock = tmp.clock ∧
     (start tmp read).2.unit = tmp.unit ∧ (start tmp read).2.stop = tmp.stop) ∧
    ((stop tmp read).2.name = tmp.name ∧ (stop tmp read).2.clock = tmp.clock ∧
     (stop tmp read).2.unit = tmp.unit ∧ (stop tmp read).2.start = tmp.start) := by
  cases read <;> exact ⟨⟨rfl, rfl, rfl, rfl⟩, rfl, rfl, rfl, rfl⟩

end Timer
